import Mathlib

/-!
Verification development for the virtual GIC (Generic Interrupt Controller)
subsystem of the VMM: a shallow embedding of the register-state
capture/restore engine of the GICv3 and GICv3+ITS device variants
(arch/src/aarch64/gic/gicv3.rs, gicv3_its.rs, mod.rs, its_regs.rs and
devices/src/gic.rs), together with theorems settling the specified
ordering, error-handling, layout and invariant properties.

Machine integers (u32/u64) are modelled as Nat; none of the embedded code
paths perform wrapping arithmetic on register values.  The privileged
device-attribute transport is modelled as a state-plus-trace structure in
which each attribute operation either succeeds against an architectural
register file or fails at an injected failure point, mirroring the fact
that every kvm ioctl in the source can independently return an error.
-/

/- ------------------------------------------------------------------ -/
/- Numeric constants of the kernel virtualization ABI (kvm_bindings)  -/
/- ------------------------------------------------------------------ -/

@[simp] def KVM_DEV_ARM_VGIC_GRP_CTRL : Nat := 4

@[simp] def KVM_DEV_ARM_VGIC_GRP_ITS_REGS : Nat := 8

@[simp] def KVM_DEV_ARM_VGIC_CTRL_INIT : Nat := 0

@[simp] def KVM_DEV_ARM_ITS_SAVE_TABLES : Nat := 1

@[simp] def KVM_DEV_ARM_ITS_RESTORE_TABLES : Nat := 2

@[simp] def KVM_DEV_ARM_VGIC_SAVE_PENDING_TABLES : Nat := 3

/-- GITS register offsets from gicv3_its.rs (wire contract constants). -/
@[simp] def GITS_CTLR : Nat := 0x0000

@[simp] def GITS_IIDR : Nat := 0x0004

@[simp] def GITS_CBASER : Nat := 0x0080

@[simp] def GITS_CWRITER : Nat := 0x0088

@[simp] def GITS_CREADR : Nat := 0x0090

@[simp] def GITS_BASER : Nat := 0x0100

/- ------------------------------------------------------------------ -/
/- Events: the privileged operations a transaction issues             -/
/- ------------------------------------------------------------------ -/

/-- One privileged operation issued against a device handle during a
capture or restore transaction.  The gic-prefixed events are issued
against the GIC (distributor/redistributor) handle, the its-prefixed
events against the ITS handle carrying the numeric (group, attr) pair
from the source.  The deserialize event instruments the point where
restore attempts to decode the snapshot bytes. -/
inductive Ev : Type
  | gicSavePendingTables
  | gicReadCtlr
  | gicReadDist
  | gicReadRedist
  | gicReadIcc
  | gicWriteCtlr
  | gicWriteDist
  | gicWriteRedist
  | gicWriteIcc
  | itsGet (group attr : Nat)
  | itsSet (group attr : Nat)
  | deserialize
deriving DecidableEq, BEq

/-- Low-level error of crate::aarch64::gic (mod.rs Error), restricted to
the two attribute-access variants that the capture/restore paths can
produce; the hypervisor error payloads are opaque and dropped. -/
inductive GicLowError : Type
  | setDeviceAttribute
  | getDeviceAttribute
deriving DecidableEq, BEq

/- ------------------------------------------------------------------ -/
/- Architectural register files behind the two device handles          -/
/- ------------------------------------------------------------------ -/

/-- Registers reachable through the GIC device handle: the distributor
control register plus the three ordered word sequences of the register
classes (spec section 3, state record shape). -/
structure GicRegs : Type where
  gicd_ctlr : Nat
  dist : List Nat
  rdist : List Nat
  icc : List Nat
deriving DecidableEq

/-- Registers reachable through the ITS device handle
(gicv3_its.rs state record fields). -/
structure ItsRegs : Type where
  its_ctlr : Nat
  its_iidr : Nat
  its_cbaser : Nat
  its_cwriter : Nat
  its_creadr : Nat
  its_baser : List Nat
deriving DecidableEq

/-- Read the ITS register selected by a KVM_DEV_ARM_VGIC_GRP_ITS_REGS
attribute offset (the numeric offsets are the GITS constants). -/
@[simp] def ItsRegs.getAttr (r : ItsRegs) (attr : Nat) : Nat :=
  if attr = GITS_CTLR then r.its_ctlr
  else if attr = GITS_IIDR then r.its_iidr
  else if attr = GITS_CBASER then r.its_cbaser
  else if attr = GITS_CWRITER then r.its_cwriter
  else if attr = GITS_CREADR then r.its_creadr
  else if GITS_BASER ≤ attr then r.its_baser.getD ((attr - GITS_BASER) / 8) 0
  else 0

/-- Write the ITS register selected by an ITS_REGS attribute offset. -/
@[simp] def ItsRegs.setAttr (r : ItsRegs) (attr v : Nat) : ItsRegs :=
  if attr = GITS_CTLR then { r with its_ctlr := v }
  else if attr = GITS_IIDR then { r with its_iidr := v }
  else if attr = GITS_CBASER then { r with its_cbaser := v }
  else if attr = GITS_CWRITER then { r with its_cwriter := v }
  else if attr = GITS_CREADR then { r with its_creadr := v }
  else if GITS_BASER ≤ attr then
    { r with its_baser := r.its_baser.set ((attr - GITS_BASER) / 8) v }
  else r

/- ------------------------------------------------------------------ -/
/- The device-attribute transport, with fault injection and a trace    -/
/- ------------------------------------------------------------------ -/

/-- State of one capture/restore transaction: the architectural register
files behind the two handles, the guest-RAM materialization flags set by
the control operations, an injected failure point (the index, within the
transaction, of the first privileged operation the virtualization layer
rejects; none means every operation succeeds), the count of operations
attempted so far, and the trace of attempted operations. -/
structure Tx : Type where
  gic : GicRegs
  its : ItsRegs
  pendingSaved : Bool
  itsTablesSaved : Bool
  itsTablesRestored : Bool
  failAt : Option Nat
  count : Nat
  trace : List Ev
deriving DecidableEq

/-- Fresh transaction state over given register files. -/
@[simp] def Tx.init (g : GicRegs) (i : ItsRegs) (failAt : Option Nat) : Tx :=
  { gic := g, its := i, pendingSaved := false, itsTablesSaved := false,
    itsTablesRestored := false, failAt := failAt, count := 0, trace := [] }

/-- Attempt one privileged operation: it is recorded in the trace, and
succeeds exactly when the injected failure point does not name it. -/
@[simp] def Tx.issue (t : Tx) (e : Ev) : Bool × Tx :=
  let ok : Bool := match t.failAt with
    | none => true
    | some k => decide (k ≠ t.count)
  (ok, { t with count := t.count + 1, trace := t.trace ++ [e] })

/-- Control operation of mod.rs save_pending_tables: one set_device_attr
with group KVM_DEV_ARM_VGIC_GRP_CTRL, attr SAVE_PENDING_TABLES, issued on
the GIC handle; flushes redistributor pending tables to guest RAM. -/
@[simp] def save_pending_tables (t : Tx) : Except GicLowError Unit × Tx :=
  let (ok, t) := t.issue .gicSavePendingTables
  if ok then (.ok (), { t with pendingSaved := true })
  else (.error .setDeviceAttribute, t)

/-- Modelled from the spec: dist_regs.rs is declared in mod.rs but absent
from the sources; per spec section 4.2 the distributor control register
has its own single-value read against the GIC handle. -/
@[simp] def read_ctlr (t : Tx) : Except GicLowError Nat × Tx :=
  let (ok, t) := t.issue .gicReadCtlr
  if ok then (.ok t.gic.gicd_ctlr, t) else (.error .getDeviceAttribute, t)

/-- Modelled from the spec: single-value distributor control write. -/
@[simp] def write_ctlr (t : Tx) (v : Nat) : Except GicLowError Unit × Tx :=
  let (ok, t) := t.issue .gicWriteCtlr
  if ok then (.ok (), { t with gic := { t.gic with gicd_ctlr := v } })
  else (.error .setDeviceAttribute, t)

/-- Modelled from the spec: dist_regs.rs codec read, returning the
ordered sequence of distributor register words. -/
@[simp] def get_dist_regs (t : Tx) : Except GicLowError (List Nat) × Tx :=
  let (ok, t) := t.issue .gicReadDist
  if ok then (.ok t.gic.dist, t) else (.error .getDeviceAttribute, t)

/-- Modelled from the spec: dist_regs.rs codec write. -/
@[simp] def set_dist_regs (t : Tx) (l : List Nat) : Except GicLowError Unit × Tx :=
  let (ok, t) := t.issue .gicWriteDist
  if ok then (.ok (), { t with gic := { t.gic with dist := l } })
  else (.error .setDeviceAttribute, t)

/-- Modelled from the spec: redist_regs.rs codec read; the gicr_typers
sequence parameterizes per-vCPU block addressing only. -/
@[simp] def get_redist_regs (t : Tx) (typers : List Nat) :
    Except GicLowError (List Nat) × Tx :=
  let _ := typers
  let (ok, t) := t.issue .gicReadRedist
  if ok then (.ok t.gic.rdist, t) else (.error .getDeviceAttribute, t)

/-- Modelled from the spec: redist_regs.rs codec write. -/
@[simp] def set_redist_regs (t : Tx) (typers : List Nat) (l : List Nat) :
    Except GicLowError Unit × Tx :=
  let _ := typers
  let (ok, t) := t.issue .gicWriteRedist
  if ok then (.ok (), { t with gic := { t.gic with rdist := l } })
  else (.error .setDeviceAttribute, t)

/-- Modelled from the spec: icc_regs.rs codec read (CPU interface). -/
@[simp] def get_icc_regs (t : Tx) (typers : List Nat) :
    Except GicLowError (List Nat) × Tx :=
  let _ := typers
  let (ok, t) := t.issue .gicReadIcc
  if ok then (.ok t.gic.icc, t) else (.error .getDeviceAttribute, t)

/-- Modelled from the spec: icc_regs.rs codec write. -/
@[simp] def set_icc_regs (t : Tx) (typers : List Nat) (l : List Nat) :
    Except GicLowError Unit × Tx :=
  let _ := typers
  let (ok, t) := t.issue .gicWriteIcc
  if ok then (.ok (), { t with gic := { t.gic with icc := l } })
  else (.error .setDeviceAttribute, t)

/-- Embedding of its_regs.rs gic_v3_its_attr_access_64: one get or set
device-attribute call on the ITS handle, keyed by numeric (group, attr).
A set against the ITS_REGS group writes the addressed register; a set
against the CTRL group performs the named control operation; a get
returns the addressed register value through the value pointer. -/
@[simp] def gic_v3_its_attr_access_64 (t : Tx) (group attr : Nat) (val : Nat)
    (set : Bool) : Except GicLowError Nat × Tx :=
  let (ok, t) := t.issue (if set then .itsSet group attr else .itsGet group attr)
  if ok then
    if set then
      if group = KVM_DEV_ARM_VGIC_GRP_ITS_REGS then
        (.ok val, { t with its := t.its.setAttr attr val })
      else if group = KVM_DEV_ARM_VGIC_GRP_CTRL then
        if attr = KVM_DEV_ARM_ITS_SAVE_TABLES then
          (.ok val, { t with itsTablesSaved := true })
        else if attr = KVM_DEV_ARM_ITS_RESTORE_TABLES then
          (.ok val, { t with itsTablesRestored := true })
        else (.ok val, t)
      else (.ok val, t)
    else
      (.ok (if group = KVM_DEV_ARM_VGIC_GRP_ITS_REGS then t.its.getAttr attr
            else 0), t)
  else (.error (if set then .setDeviceAttribute else .getDeviceAttribute), t)

/-- Embedding of its_regs.rs gic_v3_its_attr_access_32, whose body is
identical to the 64-bit variant up to the width of the value cell. -/
@[simp] def gic_v3_its_attr_access_32 (t : Tx) (group attr : Nat) (val : Nat)
    (set : Bool) : Except GicLowError Nat × Tx :=
  gic_v3_its_attr_access_64 t group attr val set

/- ------------------------------------------------------------------ -/
/- GICv3 variant: error enum, state record, engine (gicv3.rs)          -/
/- ------------------------------------------------------------------ -/

/-- Error enum of gicv3.rs: one distinct variant per register class and
direction (save vs restore). -/
inductive Gicv3Error : Type
  | savePendingTables (e : GicLowError)
  | saveDistributorRegisters (e : GicLowError)
  | restoreDistributorRegisters (e : GicLowError)
  | saveDistributorCtrlRegisters (e : GicLowError)
  | restoreDistributorCtrlRegisters (e : GicLowError)
  | saveRedistributorRegisters (e : GicLowError)
  | restoreRedistributorRegisters (e : GicLowError)
  | saveICCRegisters (e : GicLowError)
  | restoreICCRegisters (e : GicLowError)
deriving DecidableEq

/-- Serializable state record of the GICv3 variant (gicv3.rs Gicv3State). -/
structure Gicv3State : Type where
  dist : List Nat
  rdist : List Nat
  icc : List Nat
  gicd_ctlr : Nat
deriving DecidableEq

/-- Embedding of KvmGICv3::state: flush pending tables, then read the
distributor control register, distributor, redistributor and CPU
interface register classes, in source order, each failure wrapped in its
save-direction error variant. -/
@[simp] def KvmGICv3.state (typers : List Nat) (t : Tx) :
    Except Gicv3Error Gicv3State × Tx :=
  match save_pending_tables t with
  | (.error e, t) => (.error (.savePendingTables e), t)
  | (.ok _, t) =>
  match read_ctlr t with
  | (.error e, t) => (.error (.saveDistributorCtrlRegisters e), t)
  | (.ok gicd_ctlr, t) =>
  match get_dist_regs t with
  | (.error e, t) => (.error (.saveDistributorRegisters e), t)
  | (.ok dist_state, t) =>
  match get_redist_regs t typers with
  | (.error e, t) => (.error (.saveRedistributorRegisters e), t)
  | (.ok rdist_state, t) =>
  match get_icc_regs t typers with
  | (.error e, t) => (.error (.saveICCRegisters e), t)
  | (.ok icc_state, t) =>
    (.ok { dist := dist_state, rdist := rdist_state, icc := icc_state,
           gicd_ctlr := gicd_ctlr }, t)

/-- Embedding of KvmGICv3::set_state: write the distributor control
register, then the distributor, redistributor and CPU interface register
classes, in source order, each failure wrapped in its restore-direction
error variant. -/
@[simp] def KvmGICv3.set_state (typers : List Nat) (state : Gicv3State) (t : Tx) :
    Except Gicv3Error Unit × Tx :=
  match write_ctlr t state.gicd_ctlr with
  | (.error e, t) => (.error (.restoreDistributorCtrlRegisters e), t)
  | (.ok _, t) =>
  match set_dist_regs t state.dist with
  | (.error e, t) => (.error (.restoreDistributorRegisters e), t)
  | (.ok _, t) =>
  match set_redist_regs t typers state.rdist with
  | (.error e, t) => (.error (.restoreRedistributorRegisters e), t)
  | (.ok _, t) =>
  match set_icc_regs t typers state.icc with
  | (.error e, t) => (.error (.restoreICCRegisters e), t)
  | (.ok _, t) => (.ok (), t)

/-- Example register files used to instantiate closed theorems. -/
def sampleGicRegs : GicRegs :=
  { gicd_ctlr := 3, dist := [10, 11], rdist := [20, 21], icc := [30] }

/-- Example ITS register file used to instantiate closed theorems. -/
def sampleItsRegs : ItsRegs :=
  { its_ctlr := 1, its_iidr := 2, its_cbaser := 40, its_cwriter := 41,
    its_creadr := 42, its_baser := [50, 51, 52, 53, 54, 55, 56, 57] }

/-- Example GICv3 state record used to instantiate closed theorems. -/
def sampleV3State : Gicv3State :=
  { dist := [1], rdist := [2], icc := [3], gicd_ctlr := 4 }

example :
    (KvmGICv3.set_state [0] sampleV3State
        (Tx.init sampleGicRegs sampleItsRegs none)).2.trace =
      [.gicWriteCtlr, .gicWriteDist, .gicWriteRedist, .gicWriteIcc] := rfl

/- ------------------------------------------------------------------ -/
/- GICv3+ITS variant: error enum, state record, engine (gicv3_its.rs)  -/
/- ------------------------------------------------------------------ -/

/-- Error enum of gicv3_its.rs: one distinct variant per register class
or control operation and direction. -/
inductive Gicv3ITSError : Type
  | savePendingTables (e : GicLowError)
  | saveDistributorRegisters (e : GicLowError)
  | restoreDistributorRegisters (e : GicLowError)
  | saveDistributorCtrlRegisters (e : GicLowError)
  | restoreDistributorCtrlRegisters (e : GicLowError)
  | saveRedistributorRegisters (e : GicLowError)
  | restoreRedistributorRegisters (e : GicLowError)
  | saveICCRegisters (e : GicLowError)
  | restoreICCRegisters (e : GicLowError)
  | saveITSIIDR (e : GicLowError)
  | restoreITSIIDR (e : GicLowError)
  | saveITSCBASER (e : GicLowError)
  | restoreITSCBASER (e : GicLowError)
  | saveITSCREADR (e : GicLowError)
  | restoreITSCREADR (e : GicLowError)
  | saveITSCWRITER (e : GicLowError)
  | restoreITSCWRITER (e : GicLowError)
  | saveITSBASER (e : GicLowError)
  | restoreITSBASER (e : GicLowError)
  | saveITSCTLR (e : GicLowError)
  | restoreITSCTLR (e : GicLowError)
  | saveITSRestoreTables (e : GicLowError)
  | restoreITSRestoreTables (e : GicLowError)
deriving DecidableEq

/-- Serializable state record of the GICv3+ITS variant
(gicv3_its.rs Gicv3ITSState). -/
structure Gicv3ITSState : Type where
  dist : List Nat
  rdist : List Nat
  icc : List Nat
  gicd_ctlr : Nat
  its_ctlr : Nat
  its_iidr : Nat
  its_cbaser : Nat
  its_cwriter : Nat
  its_creadr : Nat
  its_baser : List Nat
deriving DecidableEq

/-- The read loop of KvmGICv3ITS::state over the eight BASER table
descriptors: for i in 0..8 read attribute GITS_BASER + i * 8 into slot i,
wrapping any failure in the saveITSBASER variant.  The first argument is
the number of remaining iterations. -/
@[simp] def saveBaserLoop : Nat → Nat → List Nat → Tx →
    Except Gicv3ITSError (List Nat) × Tx
  | 0, _, acc, t => (.ok acc, t)
  | rem + 1, i, acc, t =>
    match gic_v3_its_attr_access_64 t KVM_DEV_ARM_VGIC_GRP_ITS_REGS
        (GITS_BASER + i * 8) 0 false with
    | (.error e, t) => (.error (.saveITSBASER e), t)
    | (.ok v, t) => saveBaserLoop rem (i + 1) (acc ++ [v]) t

/-- The write loop of KvmGICv3ITS::set_state over the eight BASER table
descriptors: for i in 0..8 write baser[i] to attribute GITS_BASER + i * 8,
wrapping any failure in the restoreITSBASER variant. -/
@[simp] def restoreBaserLoop : Nat → Nat → List Nat → Tx →
    Except Gicv3ITSError Unit × Tx
  | 0, _, _, t => (.ok (), t)
  | rem + 1, i, baser, t =>
    match gic_v3_its_attr_access_64 t KVM_DEV_ARM_VGIC_GRP_ITS_REGS
        (GITS_BASER + i * 8) (baser.getD i 0) true with
    | (.error e, t) => (.error (.restoreITSBASER e), t)
    | (.ok _, t) => restoreBaserLoop rem (i + 1) baser t

/-- Embedding of KvmGICv3ITS::state: flush redistributor pending tables,
read the four GIC-block register classes, then read the ITS registers in
source order (the BASER loop, then CTLR, CBASER, CREADR, CWRITER, IIDR).
No save-ITS-tables control operation appears anywhere in this function,
exactly as in the source. -/
@[simp] def KvmGICv3ITS.state (typers : List Nat) (t : Tx) :
    Except Gicv3ITSError Gicv3ITSState × Tx :=
  match save_pending_tables t with
  | (.error e, t) => (.error (.savePendingTables e), t)
  | (.ok _, t) =>
  match read_ctlr t with
  | (.error e, t) => (.error (.saveDistributorCtrlRegisters e), t)
  | (.ok gicd_ctlr, t) =>
  match get_dist_regs t with
  | (.error e, t) => (.error (.saveDistributorRegisters e), t)
  | (.ok dist_state, t) =>
  match get_redist_regs t typers with
  | (.error e, t) => (.error (.saveRedistributorRegisters e), t)
  | (.ok rdist_state, t) =>
  match get_icc_regs t typers with
  | (.error e, t) => (.error (.saveICCRegisters e), t)
  | (.ok icc_state, t) =>
  match saveBaserLoop 8 0 [] t with
  | (.error e, t) => (.error e, t)
  | (.ok its_baser_state, t) =>
  match gic_v3_its_attr_access_32 t KVM_DEV_ARM_VGIC_GRP_ITS_REGS GITS_CTLR
      0 false with
  | (.error e, t) => (.error (.saveITSCTLR e), t)
  | (.ok its_ctlr_state, t) =>
  match gic_v3_its_attr_access_64 t KVM_DEV_ARM_VGIC_GRP_ITS_REGS GITS_CBASER
      0 false with
  | (.error e, t) => (.error (.saveITSCBASER e), t)
  | (.ok its_cbaser_state, t) =>
  match gic_v3_its_attr_access_64 t KVM_DEV_ARM_VGIC_GRP_ITS_REGS GITS_CREADR
      0 false with
  | (.error e, t) => (.error (.saveITSCREADR e), t)
  | (.ok its_creadr_state, t) =>
  match gic_v3_its_attr_access_64 t KVM_DEV_ARM_VGIC_GRP_ITS_REGS GITS_CWRITER
      0 false with
  | (.error e, t) => (.error (.saveITSCWRITER e), t)
  | (.ok its_cwriter_state, t) =>
  match gic_v3_its_attr_access_32 t KVM_DEV_ARM_VGIC_GRP_ITS_REGS GITS_IIDR
      0 false with
  | (.error e, t) => (.error (.saveITSIIDR e), t)
  | (.ok its_iidr_state, t) =>
    (.ok { dist := dist_state, rdist := rdist_state, icc := icc_state,
           gicd_ctlr := gicd_ctlr,
           its_ctlr := its_ctlr_state, its_iidr := its_iidr_state,
           its_cbaser := its_cbaser_state, its_cwriter := its_cwriter_state,
           its_creadr := its_creadr_state, its_baser := its_baser_state }, t)

/-- Embedding of KvmGICv3ITS::set_state: restore the GIC block (control
register, distributor, redistributor, CPU interface), then write IIDR,
CBASER, CREADR, CWRITER and the BASER loop, then issue the
restore-ITS-tables control operation, and finally write the ITS CTLR, in
source order. -/
@[simp] def KvmGICv3ITS.set_state (typers : List Nat) (state : Gicv3ITSState)
    (t : Tx) : Except Gicv3ITSError Unit × Tx :=
  match write_ctlr t state.gicd_ctlr with
  | (.error e, t) => (.error (.restoreDistributorCtrlRegisters e), t)
  | (.ok _, t) =>
  match set_dist_regs t state.dist with
  | (.error e, t) => (.error (.restoreDistributorRegisters e), t)
  | (.ok _, t) =>
  match set_redist_regs t typers state.rdist with
  | (.error e, t) => (.error (.restoreRedistributorRegisters e), t)
  | (.ok _, t) =>
  match set_icc_regs t typers state.icc with
  | (.error e, t) => (.error (.restoreICCRegisters e), t)
  | (.ok _, t) =>
  match gic_v3_its_attr_access_32 t KVM_DEV_ARM_VGIC_GRP_ITS_REGS GITS_IIDR
      state.its_iidr true with
  | (.error e, t) => (.error (.restoreITSIIDR e), t)
  | (.ok _, t) =>
  match gic_v3_its_attr_access_64 t KVM_DEV_ARM_VGIC_GRP_ITS_REGS GITS_CBASER
      state.its_cbaser true with
  | (.error e, t) => (.error (.restoreITSCBASER e), t)
  | (.ok _, t) =>
  match gic_v3_its_attr_access_64 t KVM_DEV_ARM_VGIC_GRP_ITS_REGS GITS_CREADR
      state.its_creadr true with
  | (.error e, t) => (.error (.restoreITSCREADR e), t)
  | (.ok _, t) =>
  match gic_v3_its_attr_access_64 t KVM_DEV_ARM_VGIC_GRP_ITS_REGS GITS_CWRITER
      state.its_cwriter true with
  | (.error e, t) => (.error (.restoreITSCWRITER e), t)
  | (.ok _, t) =>
  match restoreBaserLoop 8 0 state.its_baser t with
  | (.error e, t) => (.error e, t)
  | (.ok _, t) =>
  match gic_v3_its_attr_access_64 t KVM_DEV_ARM_VGIC_GRP_CTRL
      KVM_DEV_ARM_ITS_RESTORE_TABLES 0 true with
  | (.error e, t) => (.error (.restoreITSRestoreTables e), t)
  | (.ok _, t) =>
  match gic_v3_its_attr_access_32 t KVM_DEV_ARM_VGIC_GRP_ITS_REGS GITS_CTLR
      state.its_ctlr true with
  | (.error e, t) => (.error (.restoreITSCTLR e), t)
  | (.ok _, t) => (.ok (), t)

/-- Trace of a GICv3+ITS restore transaction with failure point k. -/
@[simp] def itsRestoreTrace (k : Option Nat) (g : GicRegs) (i : ItsRegs)
    (typers : List Nat) (st : Gicv3ITSState) : List Ev :=
  (KvmGICv3ITS.set_state typers st (Tx.init g i k)).2.trace

/-- Trace of a GICv3+ITS capture transaction with failure point k. -/
@[simp] def itsCaptureTrace (k : Option Nat) (g : GicRegs) (i : ItsRegs)
    (typers : List Nat) : List Ev :=
  (KvmGICv3ITS.state typers (Tx.init g i k)).2.trace

/-- Trace of a GICv3 restore transaction with failure point k. -/
@[simp] def gicv3RestoreTrace (k : Option Nat) (g : GicRegs) (i : ItsRegs)
    (typers : List Nat) (st : Gicv3State) : List Ev :=
  (KvmGICv3.set_state typers st (Tx.init g i k)).2.trace

/-- Example GICv3+ITS state record used to instantiate closed theorems. -/
def sampleV3ITSState : Gicv3ITSState :=
  { dist := [1], rdist := [2], icc := [3], gicd_ctlr := 4,
    its_ctlr := 5, its_iidr := 6, its_cbaser := 7, its_cwriter := 8,
    its_creadr := 9, its_baser := [61, 62, 63, 64, 65, 66, 67, 68] }

/- ------------------------------------------------------------------ -/
/- Ordering vocabulary over traces                                     -/
/- ------------------------------------------------------------------ -/

/-- The restore-ITS-tables control operation (set on the CTRL group). -/
def isItsRestoreTablesOp (e : Ev) : Bool :=
  e == .itsSet KVM_DEV_ARM_VGIC_GRP_CTRL KVM_DEV_ARM_ITS_RESTORE_TABLES

/-- The save-ITS-tables control operation (set on the CTRL group). -/
def isItsSaveTablesOp (e : Ev) : Bool :=
  e == .itsSet KVM_DEV_ARM_VGIC_GRP_CTRL KVM_DEV_ARM_ITS_SAVE_TABLES

/-- A write of an ITS command-queue pointer (CBASER/CWRITER/CREADR) or of
one of the BASER table descriptors. -/
def isItsQueueOrTableWrite : Ev → Bool
  | .itsSet g a =>
      g == KVM_DEV_ARM_VGIC_GRP_ITS_REGS &&
        (a == GITS_CBASER || a == GITS_CWRITER || a == GITS_CREADR ||
          decide (GITS_BASER ≤ a))
  | _ => false

/-- A write of the ITS control register. -/
def isItsCtlrWrite (e : Ev) : Bool :=
  e == .itsSet KVM_DEV_ARM_VGIC_GRP_ITS_REGS GITS_CTLR

/-- A read of an ITS register through the ITS_REGS group. -/
def isItsRegRead : Ev → Bool
  | .itsGet g _ => g == KVM_DEV_ARM_VGIC_GRP_ITS_REGS
  | _ => false

/-- Any operation issued on the ITS device handle. -/
def isItsBlockOp : Ev → Bool
  | .itsGet _ _ => true
  | .itsSet _ _ => true
  | _ => false

/-- Any operation issued on the GIC device handle. -/
def isGicBlockOp : Ev → Bool
  | .gicSavePendingTables => true
  | .gicReadCtlr => true
  | .gicReadDist => true
  | .gicReadRedist => true
  | .gicReadIcc => true
  | .gicWriteCtlr => true
  | .gicWriteDist => true
  | .gicWriteRedist => true
  | .gicWriteIcc => true
  | _ => false

/-- Safety scan: no q-event occurs strictly after any p-event.  The Bool
accumulator records whether a p-event has already been seen. -/
def noneOfAfter (p q : Ev → Bool) : Bool → List Ev → Bool
  | _, [] => true
  | seen, e :: l => (!(seen && q e)) && noneOfAfter p q (seen || p e) l

/-- Safety scan: every p-event is strictly preceded by some q-event.  The
Bool accumulator records whether a q-event has already been seen. -/
def eachPrecededBy (p q : Ev → Bool) : Bool → List Ev → Bool
  | _, [] => true
  | seen, e :: l => (!(p e) || seen) && eachPrecededBy p q (seen || q e) l

/-- Number of operations a transaction of len privileged operations
attempts under failure point k: all of them when no operation fails, and
the failing operation is the last one attempted otherwise. -/
def txStop (k : Option Nat) (len : Nat) : Nat :=
  match k with
  | none => len
  | some m => min (m + 1) len

/-- The complete operation sequence of a GICv3+ITS restore transaction. -/
def itsRestoreFullTrace : List Ev :=
  [.gicWriteCtlr, .gicWriteDist, .gicWriteRedist, .gicWriteIcc,
   .itsSet KVM_DEV_ARM_VGIC_GRP_ITS_REGS GITS_IIDR,
   .itsSet KVM_DEV_ARM_VGIC_GRP_ITS_REGS GITS_CBASER,
   .itsSet KVM_DEV_ARM_VGIC_GRP_ITS_REGS GITS_CREADR,
   .itsSet KVM_DEV_ARM_VGIC_GRP_ITS_REGS GITS_CWRITER,
   .itsSet KVM_DEV_ARM_VGIC_GRP_ITS_REGS (GITS_BASER + 0 * 8),
   .itsSet KVM_DEV_ARM_VGIC_GRP_ITS_REGS (GITS_BASER + 1 * 8),
   .itsSet KVM_DEV_ARM_VGIC_GRP_ITS_REGS (GITS_BASER + 2 * 8),
   .itsSet KVM_DEV_ARM_VGIC_GRP_ITS_REGS (GITS_BASER + 3 * 8),
   .itsSet KVM_DEV_ARM_VGIC_GRP_ITS_REGS (GITS_BASER + 4 * 8),
   .itsSet KVM_DEV_ARM_VGIC_GRP_ITS_REGS (GITS_BASER + 5 * 8),
   .itsSet KVM_DEV_ARM_VGIC_GRP_ITS_REGS (GITS_BASER + 6 * 8),
   .itsSet KVM_DEV_ARM_VGIC_GRP_ITS_REGS (GITS_BASER + 7 * 8),
   .itsSet KVM_DEV_ARM_VGIC_GRP_CTRL KVM_DEV_ARM_ITS_RESTORE_TABLES,
   .itsSet KVM_DEV_ARM_VGIC_GRP_ITS_REGS GITS_CTLR]

/-- The complete operation sequence of a GICv3 restore transaction. -/
def gicv3RestoreFullTrace : List Ev :=
  [.gicWriteCtlr, .gicWriteDist, .gicWriteRedist, .gicWriteIcc]

/-- Characterization: under any failure point, the operations attempted
by a GICv3+ITS restore transaction form the prefix of the complete
sequence cut at the failure point, independently of the register data. -/
theorem itsRestoreTrace_char (k : Option Nat) (g : GicRegs) (i : ItsRegs)
    (typers : List Nat) (st : Gicv3ITSState) :
    itsRestoreTrace k g i typers st = itsRestoreFullTrace.take (txStop k 18) := by
  match k with
  | none => simp [txStop, itsRestoreFullTrace]
  | some m =>
    rcases Nat.lt_or_ge m 18 with h | h
    · interval_cases m <;> simp [txStop, itsRestoreFullTrace]
    · have d0 : (decide (m ≠ 0)) = true := decide_eq_true (by omega)
      have d1 : (decide (m ≠ 1)) = true := decide_eq_true (by omega)
      have d2 : (decide (m ≠ 2)) = true := decide_eq_true (by omega)
      have d3 : (decide (m ≠ 3)) = true := decide_eq_true (by omega)
      have d4 : (decide (m ≠ 4)) = true := decide_eq_true (by omega)
      have d5 : (decide (m ≠ 5)) = true := decide_eq_true (by omega)
      have d6 : (decide (m ≠ 6)) = true := decide_eq_true (by omega)
      have d7 : (decide (m ≠ 7)) = true := decide_eq_true (by omega)
      have d8 : (decide (m ≠ 8)) = true := decide_eq_true (by omega)
      have d9 : (decide (m ≠ 9)) = true := decide_eq_true (by omega)
      have d10 : (decide (m ≠ 10)) = true := decide_eq_true (by omega)
      have d11 : (decide (m ≠ 11)) = true := decide_eq_true (by omega)
      have d12 : (decide (m ≠ 12)) = true := decide_eq_true (by omega)
      have d13 : (decide (m ≠ 13)) = true := decide_eq_true (by omega)
      have d14 : (decide (m ≠ 14)) = true := decide_eq_true (by omega)
      have d15 : (decide (m ≠ 15)) = true := decide_eq_true (by omega)
      have d16 : (decide (m ≠ 16)) = true := decide_eq_true (by omega)
      have d17 : (decide (m ≠ 17)) = true := decide_eq_true (by omega)
      have hs : txStop (some m) 18 = 18 := by simp [txStop]; omega
      rw [hs]
      simp [txStop, itsRestoreFullTrace, d0, d1, d2, d3, d4, d5, d6, d7,
        d8, d9, d10, d11, d12, d13, d14, d15, d16, d17]

/-- Characterization of the GICv3 restore transaction trace. -/
theorem gicv3RestoreTrace_char (k : Option Nat) (g : GicRegs) (i : ItsRegs)
    (typers : List Nat) (st : Gicv3State) :
    gicv3RestoreTrace k g i typers st = gicv3RestoreFullTrace.take (txStop k 4) := by
  match k with
  | none => simp [txStop, gicv3RestoreFullTrace]
  | some m =>
    rcases Nat.lt_or_ge m 4 with h | h
    · interval_cases m <;> simp [txStop, gicv3RestoreFullTrace]
    · have d0 : (decide (m ≠ 0)) = true := decide_eq_true (by omega)
      have d1 : (decide (m ≠ 1)) = true := decide_eq_true (by omega)
      have d2 : (decide (m ≠ 2)) = true := decide_eq_true (by omega)
      have d3 : (decide (m ≠ 3)) = true := decide_eq_true (by omega)
      have hs : txStop (some m) 4 = 4 := by simp [txStop]; omega
      rw [hs]
      simp [txStop, gicv3RestoreFullTrace, d0, d1, d2, d3]

/- ------------------------------------------------------------------ -/
/- Claims C1, C2, C5, C6: transaction ordering and round-trip          -/
/- ------------------------------------------------------------------ -/

/-- C1: the claim states that in every GICv3+ITS capture transaction the
save-ITS-tables control operation is issued before any ITS register is
read.  The code violates this: KvmGICv3ITS::state reads BASER[0..8],
CTLR, CBASER, CREADR, CWRITER and IIDR from the ITS handle but never
issues the KVM_DEV_ARM_ITS_SAVE_TABLES control operation (the
save_its_tables helper of mod.rs is never called).  This theorem
evaluates the capture transaction at the failing input (a fault-free
capture): ITS register reads occur, no save-tables operation occurs, and
the claimed precedence property is false. -/
theorem its_capture_never_issues_save_tables :
    (itsCaptureTrace none sampleGicRegs sampleItsRegs [0]).any
        isItsRegRead = true ∧
    (itsCaptureTrace none sampleGicRegs sampleItsRegs [0]).any
        isItsSaveTablesOp = false ∧
    eachPrecededBy isItsRegRead isItsSaveTablesOp false
        (itsCaptureTrace none sampleGicRegs sampleItsRegs [0]) = false := by
  decide

/-- C2: in every GICv3+ITS restore transaction the restore-ITS-tables
control operation comes strictly after every write of CBASER, CREADR,
CWRITER and the BASER descriptors and strictly before the ITS CTLR
write, every ITS CTLR write is preceded by the restore-tables operation,
no GIC-block operation occurs after any ITS-block operation, and the
complete (fault-free) transaction performs exactly the full sequence,
ending with the ITS CTLR write. -/
theorem its_restore_ordering (k : Option Nat) (g : GicRegs) (i : ItsRegs)
    (typers : List Nat) (st : Gicv3ITSState) :
    noneOfAfter isItsRestoreTablesOp isItsQueueOrTableWrite false
        (itsRestoreTrace k g i typers st) = true ∧
    eachPrecededBy isItsCtlrWrite isItsRestoreTablesOp false
        (itsRestoreTrace k g i typers st) = true ∧
    noneOfAfter isItsBlockOp isGicBlockOp false
        (itsRestoreTrace k g i typers st) = true ∧
    (k = none → itsRestoreTrace k g i typers st = itsRestoreFullTrace) := by
  have h := itsRestoreTrace_char k g i typers st
  have hb : txStop k 18 ≤ 18 := by
    cases k <;> simp [txStop]
  rw [h]
  refine ⟨?_, ?_, ?_, ?_⟩
  · exact (by decide : ∀ n, n ≤ 18 →
      noneOfAfter isItsRestoreTablesOp isItsQueueOrTableWrite false
        (itsRestoreFullTrace.take n) = true) _ hb
  · exact (by decide : ∀ n, n ≤ 18 →
      eachPrecededBy isItsCtlrWrite isItsRestoreTablesOp false
        (itsRestoreFullTrace.take n) = true) _ hb
  · exact (by decide : ∀ n, n ≤ 18 →
      noneOfAfter isItsBlockOp isGicBlockOp false
        (itsRestoreFullTrace.take n) = true) _ hb
  · intro hk
    subst hk
    decide

/-- Witness for C2 at a fault-free transaction over concrete data. -/
theorem its_restore_ordering_witness :
    itsRestoreTrace none sampleGicRegs sampleItsRegs [0] sampleV3ITSState =
      itsRestoreFullTrace ∧
    noneOfAfter isItsRestoreTablesOp isItsQueueOrTableWrite false
        (itsRestoreTrace none sampleGicRegs sampleItsRegs [0]
          sampleV3ITSState) = true :=
  ⟨(its_restore_ordering none sampleGicRegs sampleItsRegs [0]
      sampleV3ITSState).2.2.2 rfl,
   (its_restore_ordering none sampleGicRegs sampleItsRegs [0]
      sampleV3ITSState).1⟩

/-- A write of the distributor control register on the GIC handle. -/
def isGicCtlrWrite (e : Ev) : Bool := e == .gicWriteCtlr

/-- A write of the distributor register class on the GIC handle. -/
def isGicDistWrite (e : Ev) : Bool := e == .gicWriteDist

/-- A write of the redistributor register class on the GIC handle. -/
def isGicRedistWrite (e : Ev) : Bool := e == .gicWriteRedist

/-- A write of the CPU-interface register class on the GIC handle. -/
def isGicIccWrite (e : Ev) : Bool := e == .gicWriteIcc

/-- C5: in every GICv3 restore transaction the distributor control
register is written first and the distributor, redistributor and
CPU-interface classes follow in that order: every distributor write is
preceded by the control-register write, every redistributor write by a
distributor write, every CPU-interface write by a redistributor write,
and the complete (fault-free) transaction performs exactly the four
writes in that order. -/
theorem gicv3_restore_ordering (k : Option Nat) (g : GicRegs) (i : ItsRegs)
    (typers : List Nat) (st : Gicv3State) :
    eachPrecededBy isGicDistWrite isGicCtlrWrite false
        (gicv3RestoreTrace k g i typers st) = true ∧
    eachPrecededBy isGicRedistWrite isGicDistWrite false
        (gicv3RestoreTrace k g i typers st) = true ∧
    eachPrecededBy isGicIccWrite isGicRedistWrite false
        (gicv3RestoreTrace k g i typers st) = true ∧
    (k = none → gicv3RestoreTrace k g i typers st = gicv3RestoreFullTrace) := by
  have h := gicv3RestoreTrace_char k g i typers st
  have hb : txStop k 4 ≤ 4 := by
    cases k <;> simp [txStop]
  rw [h]
  refine ⟨?_, ?_, ?_, ?_⟩
  · exact (by decide : ∀ n, n ≤ 4 →
      eachPrecededBy isGicDistWrite isGicCtlrWrite false
        (gicv3RestoreFullTrace.take n) = true) _ hb
  · exact (by decide : ∀ n, n ≤ 4 →
      eachPrecededBy isGicRedistWrite isGicDistWrite false
        (gicv3RestoreFullTrace.take n) = true) _ hb
  · exact (by decide : ∀ n, n ≤ 4 →
      eachPrecededBy isGicIccWrite isGicRedistWrite false
        (gicv3RestoreFullTrace.take n) = true) _ hb
  · intro hk
    subst hk
    decide

/-- Witness for C5 at a fault-free transaction over concrete data. -/
theorem gicv3_restore_ordering_witness :
    gicv3RestoreTrace none sampleGicRegs sampleItsRegs [0] sampleV3State =
      gicv3RestoreFullTrace ∧
    eachPrecededBy isGicDistWrite isGicCtlrWrite false
        (gicv3RestoreTrace none sampleGicRegs sampleItsRegs [0]
          sampleV3State) = true :=
  ⟨(gicv3_restore_ordering none sampleGicRegs sampleItsRegs [0]
      sampleV3State).2.2.2 rfl,
   (gicv3_restore_ordering none sampleGicRegs sampleItsRegs [0]
      sampleV3State).1⟩

/-- C6: restoring a GICv3 state record into the device and immediately
capturing again yields exactly the restored record, for every initial
register file and every record: the capture after a fault-free restore
returns ok of the same record (serialization is injective on records, so
the serialized bytes are identical as well). -/
theorem gicv3_capture_after_restore_roundtrip (g : GicRegs) (i : ItsRegs)
    (typers : List Nat) (st : Gicv3State) :
    (KvmGICv3.state typers
        (KvmGICv3.set_state typers st (Tx.init g i none)).2).1 = .ok st := by
  obtain ⟨d, r, ic, c⟩ := st
  simp

/- ------------------------------------------------------------------ -/
/- Snapshot integration model (vm_migration + serde_json call sites)   -/
/- ------------------------------------------------------------------ -/

/-- Outcome of running code that may panic (an unwrap of an absent
option or of an error result): either a normal value or a panic. -/
inductive POut (α : Type) : Type
  | ok (a : α)
  | panicked
deriving DecidableEq

/-- Modelled from the spec: serde_json is an external crate; section 4.5
requires a self-describing schema-stable encoding whose decoder fails on
malformed bytes.  Bytes are either the encoding of a record or malformed. -/
inductive SerBytes (α : Type) : Type
  | enc (a : α)
  | malformed (n : Nat)
deriving DecidableEq

/-- Modelled from the spec: serde_json::to_vec (total on these records). -/
def serde_to_vec {α : Type} (a : α) : SerBytes α := .enc a

/-- Modelled from the spec: serde_json::from_slice. -/
def serde_from_slice {α : Type} : SerBytes α → Except Unit α
  | .enc a => .ok a
  | .malformed _ => .error ()

/-- vm_migration::SnapshotDataSection as used at the call sites: a named
byte payload. -/
structure SnapshotDataSection (α : Type) : Type where
  id : String
  snapshot : SerBytes α
deriving DecidableEq

/-- vm_migration::Snapshot as used at the call sites: an identifier and
a map from section name to section, modelled as an association list. -/
structure Snapshot (α : Type) : Type where
  id : String
  snapshot_data : List (String × SnapshotDataSection α)
deriving DecidableEq

/-- Modelled from usage: Snapshot::new. -/
def Snapshot.new {α : Type} (id : String) : Snapshot α :=
  { id := id, snapshot_data := [] }

/-- Modelled from usage: Snapshot::add_data_section keys the section by
its own id. -/
def Snapshot.add_data_section {α : Type} (s : Snapshot α)
    (sec : SnapshotDataSection α) : Snapshot α :=
  { s with snapshot_data := s.snapshot_data ++ [(sec.id, sec)] }

/-- Modelled from usage: map lookup on snapshot_data. -/
def Snapshot.findSection {α : Type} (s : Snapshot α) (key : String) :
    Option (SnapshotDataSection α) :=
  s.snapshot_data.lookup key

/-- vm_migration::MigratableError as observed at the call sites: the
snapshot-serialization failure and the three restore failures that carry
distinct messages in the source (could not deserialize, could not find
the snapshot section, could not restore the state, the last wrapping the
register-class error). -/
inductive MigErr (ε : Type) : Type
  | snapshotFailed
  | restoreCouldNotDeserialize
  | restoreCouldNotFindSection
  | restoreStateError (e : ε)
deriving DecidableEq

/-- Stable snapshot identifier of the GICv3 variant. -/
def GIC_V3_SNAPSHOT_ID : String := "gic-v3"

/-- Stable snapshot identifier of the GICv3+ITS variant. -/
def GIC_V3_ITS_SNAPSHOT_ID : String := "gic-v3-its"

/-- Embedding of KvmGICv3::snapshot (Snapshottable impl): the source
calls unwrap on the state result, so any capture failure panics, and
only a serde_json serialization failure would be wrapped in the
MigratableError snapshot variant (serialization is total here). -/
@[simp] def KvmGICv3.snapshot (typers : List Nat) (t : Tx) :
    POut (Except (MigErr Gicv3Error) (Snapshot Gicv3State) × Tx) :=
  match KvmGICv3.state typers t with
  | (.error _, _) => .panicked
  | (.ok st, t) =>
    .ok (.ok ((Snapshot.new GIC_V3_SNAPSHOT_ID).add_data_section
      { id := GIC_V3_SNAPSHOT_ID ++ "-section",
        snapshot := serde_to_vec st }), t)

/-- Embedding of KvmGICv3::restore (Snapshottable impl): look up the
named section, deserialize, then run set_state; each failure maps to its
distinct restore error.  The deserialize trace event instruments the
point where serde_json::from_slice is invoked. -/
@[simp] def KvmGICv3.restore (typers : List Nat) (snap : Snapshot Gicv3State)
    (t : Tx) : Except (MigErr Gicv3Error) Unit × Tx :=
  match snap.findSection (GIC_V3_SNAPSHOT_ID ++ "-section") with
  | some sec =>
    let t := { t with trace := t.trace ++ [Ev.deserialize] }
    match serde_from_slice sec.snapshot with
    | .ok st =>
      match KvmGICv3.set_state typers st t with
      | (.ok _, t) => (.ok (), t)
      | (.error e, t) => (.error (.restoreStateError e), t)
    | .error _ => (.error .restoreCouldNotDeserialize, t)
  | none => (.error .restoreCouldNotFindSection, t)

/-- C3: the claim states that every capture failure inside snapshot is
surfaced as a wrapped snapshot error and that snapshot never panics.
The code violates this: KvmGICv3::snapshot (and the ITS and devices
variants alike) calls unwrap on the state result, so a pending-table
flush failure or any register-class read failure panics instead of
returning the wrapped error.  This theorem evaluates snapshot at two
failing inputs: the pending-table flush failure (operation 0) and the
distributor-register read failure (operation 2), both panic, while the
state function itself returns the distinct save-direction errors the
wrapping was meant to carry. -/
theorem gicv3_snapshot_panics_on_capture_failure :
    KvmGICv3.snapshot [0] (Tx.init sampleGicRegs sampleItsRegs (some 0)) =
      .panicked ∧
    KvmGICv3.snapshot [0] (Tx.init sampleGicRegs sampleItsRegs (some 2)) =
      .panicked ∧
    (KvmGICv3.state [0] (Tx.init sampleGicRegs sampleItsRegs (some 0))).1 =
      .error (.savePendingTables .setDeviceAttribute) ∧
    (KvmGICv3.state [0] (Tx.init sampleGicRegs sampleItsRegs (some 2))).1 =
      .error (.saveDistributorRegisters .getDeviceAttribute) := by
  refine ⟨rfl, rfl, rfl, rfl⟩

/-- C7: if the snapshot passed to GICv3 restore has no section named
gic-v3-section, restore returns the distinct section-not-found error,
attempts no deserialization and performs no device operation (the
transaction state is returned untouched); if the section exists but its
bytes are malformed, restore returns the distinct deserialize-failure
error and performs no device operation beyond the deserialization
attempt. -/
theorem gicv3_restore_missing_or_malformed_section (g : GicRegs)
    (i : ItsRegs) (typers : List Nat) (snap : Snapshot Gicv3State) :
    (snap.findSection (GIC_V3_SNAPSHOT_ID ++ "-section") = none →
      KvmGICv3.restore typers snap (Tx.init g i none) =
        (.error .restoreCouldNotFindSection, Tx.init g i none)) ∧
    (∀ (sec : SnapshotDataSection Gicv3State) (n : Nat),
      snap.findSection (GIC_V3_SNAPSHOT_ID ++ "-section") = some sec →
      sec.snapshot = SerBytes.malformed n →
      (KvmGICv3.restore typers snap (Tx.init g i none)).1 =
        .error .restoreCouldNotDeserialize ∧
      (KvmGICv3.restore typers snap (Tx.init g i none)).2.trace =
        [Ev.deserialize]) := by
  constructor
  · intro h
    simp [h]
  · intro sec n hs hb
    simp [hs, hb, serde_from_slice]

/-- A snapshot with no data sections at all. -/
def emptySnapshotV3 : Snapshot Gicv3State :=
  { id := "gic-v3", snapshot_data := [] }

/-- A snapshot whose gic-v3-section payload is malformed. -/
def malformedSnapshotV3 : Snapshot Gicv3State :=
  { id := "gic-v3",
    snapshot_data := [("gic-v3-section",
      { id := "gic-v3-section", snapshot := SerBytes.malformed 0 })] }

/-- Witness for C7 at a sectionless snapshot and a malformed one. -/
theorem gicv3_restore_missing_or_malformed_section_witness :
    KvmGICv3.restore [0] emptySnapshotV3
        (Tx.init sampleGicRegs sampleItsRegs none) =
      (.error .restoreCouldNotFindSection,
        Tx.init sampleGicRegs sampleItsRegs none) ∧
    (KvmGICv3.restore [0] malformedSnapshotV3
        (Tx.init sampleGicRegs sampleItsRegs none)).1 =
      .error .restoreCouldNotDeserialize :=
  ⟨(gicv3_restore_missing_or_malformed_section sampleGicRegs sampleItsRegs
      [0] emptySnapshotV3).1 rfl,
   ((gicv3_restore_missing_or_malformed_section sampleGicRegs sampleItsRegs
      [0] malformedSnapshotV3).2
      { id := "gic-v3-section", snapshot := SerBytes.malformed 0 } 0
      rfl rfl).1⟩

/- ------------------------------------------------------------------ -/
/- Devices-layer Gic (devices/src/gic.rs)                              -/
/- ------------------------------------------------------------------ -/

/-- devices::interrupt_controller::Error, modelled from its use sites in
devices/src/gic.rs (interrupt_controller.rs itself is not among the
sources): the save and restore variants carry the register-class
description string passed at the call site together with the low-level
arch error. -/
inductive IcError : Type
  | createInterruptSourceGroup
  | enableInterrupt
  | triggerInterrupt
  | saveRegisters (what : String) (e : GicLowError)
  | restoreRegisters (what : String) (e : GicLowError)
deriving DecidableEq

/-- Serializable state record of the devices-layer Gic
(devices/src/gic.rs GicState). -/
structure GicState : Type where
  dist : List Nat
  rdist : List Nat
  icc : List Nat
  gicd_ctlr : Nat
deriving DecidableEq

/-- The devices-layer Gic record: its snapshot identifier field, the
optionally-present device entity (absent until set_device_entity is
called; represented by a Unit placeholder since operations are issued
through the transaction state), and the per-vCPU gicr_typers values.
The interrupt_source_group field is not represented: it takes no part in
state capture or restore. -/
structure Gic : Type where
  id : String
  device_entity : Option Unit
  gicr_typers : List Nat
deriving DecidableEq

/-- Embedding of Gic::new: the device entity starts absent and
gicr_typers is zero-initialized with one entry per vCPU. -/
@[simp] def Gic.new (id : String) (vcpu_count : Nat) : Gic :=
  { id := id, device_entity := none,
    gicr_typers := List.replicate vcpu_count 0 }

/-- Embedding of Gic::set_device_entity. -/
@[simp] def Gic.set_device_entity (g : Gic) : Gic :=
  { g with device_entity := some () }

/-- Embedding of Gic::set_gicr_typers (devices layer). -/
@[simp] def Gic.set_gicr_typers (g : Gic) (typers : List Nat) : Gic :=
  { g with gicr_typers := typers }

/-- Embedding of devices Gic::state: every step dereferences the device
entity with as_ref().unwrap(), which panics when the entity is absent;
with the entity present it issues the same capture sequence as the
arch-layer GICv3, wrapping each failure in the SaveRegisters variant
carrying the register-class description string from the source. -/
@[simp] def Gic.state (gic : Gic) (typers : List Nat) (t : Tx) :
    POut (Except IcError GicState × Tx) :=
  match gic.device_entity with
  | none => .panicked
  | some _ =>
    match save_pending_tables t with
    | (.error e, t) =>
        .ok (.error (.saveRegisters "RAM pending tables" e), t)
    | (.ok _, t) =>
    match read_ctlr t with
    | (.error e, t) =>
        .ok (.error (.saveRegisters "distributor control register" e), t)
    | (.ok gicd_ctlr, t) =>
    match get_dist_regs t with
    | (.error e, t) =>
        .ok (.error (.saveRegisters "distributor registers" e), t)
    | (.ok dist_state, t) =>
    match get_redist_regs t typers with
    | (.error e, t) =>
        .ok (.error (.saveRegisters "redistributor registers" e), t)
    | (.ok rdist_state, t) =>
    match get_icc_regs t typers with
    | (.error e, t) =>
        .ok (.error (.saveRegisters "CPU interface registers" e), t)
    | (.ok icc_state, t) =>
      .ok (.ok { dist := dist_state, rdist := rdist_state,
                 icc := icc_state, gicd_ctlr := gicd_ctlr }, t)

/-- Embedding of devices Gic::set_state: the restore sequence of the
GICv3 block, each failure wrapped in a class-and-direction error.  The
fourth map_err in the source wraps the failing CPU-interface write in
Error::SaveRegisters, not RestoreRegisters, and the embedding reproduces
that tag exactly. -/
@[simp] def Gic.set_state (gic : Gic) (typers : List Nat) (state : GicState)
    (t : Tx) : POut (Except IcError Unit × Tx) :=
  match gic.device_entity with
  | none => .panicked
  | some _ =>
    match write_ctlr t state.gicd_ctlr with
    | (.error e, t) =>
        .ok (.error (.restoreRegisters "distributor control register" e), t)
    | (.ok _, t) =>
    match set_dist_regs t state.dist with
    | (.error e, t) =>
        .ok (.error (.restoreRegisters "distributor registers" e), t)
    | (.ok _, t) =>
    match set_redist_regs t typers state.rdist with
    | (.error e, t) =>
        .ok (.error (.restoreRegisters "redistributor registers" e), t)
    | (.ok _, t) =>
    match set_icc_regs t typers state.icc with
    | (.error e, t) =>
        .ok (.error (.saveRegisters "CPU interface registers" e), t)
    | (.ok _, t) => .ok (.ok (), t)

/-- Embedding of devices Gic::snapshot: unwraps the state result (so a
capture failure, or an absent device entity inside state, panics) and
builds the named section keyed by the id field. -/
@[simp] def Gic.snapshot (gic : Gic) (t : Tx) :
    POut (Except (MigErr IcError) (Snapshot GicState) × Tx) :=
  match Gic.state gic gic.gicr_typers t with
  | .panicked => .panicked
  | .ok (.error _, _) => .panicked
  | .ok (.ok st, t) =>
    .ok (.ok ((Snapshot.new gic.id).add_data_section
      { id := gic.id ++ "-section", snapshot := serde_to_vec st }), t)

/-- Embedding of devices Gic::restore: look up the section keyed by the
id field, deserialize, then run set_state (which panics when the device
entity is absent). -/
@[simp] def Gic.restore (gic : Gic) (snap : Snapshot GicState) (t : Tx) :
    POut (Except (MigErr IcError) Unit × Tx) :=
  match snap.findSection (gic.id ++ "-section") with
  | some sec =>
    let t := { t with trace := t.trace ++ [Ev.deserialize] }
    match serde_from_slice sec.snapshot with
    | .ok st =>
      match Gic.set_state gic gic.gicr_typers st t with
      | .panicked => .panicked
      | .ok (.ok _, t) => .ok (.ok (), t)
      | .ok (.error e, t) => .ok (.error (.restoreStateError e), t)
    | .error _ => .ok (.error .restoreCouldNotDeserialize, t)
  | none => .ok (.error .restoreCouldNotFindSection, t)

/-- A devices-layer Gic whose device entity has been set. -/
def sampleGicWithEntity : Gic :=
  (Gic.new "gic" 1).set_device_entity

/-- Example devices-layer state record. -/
def sampleGicState : GicState :=
  { dist := [1], rdist := [2], icc := [3], gicd_ctlr := 4 }

/-- Projection of a possibly-panicking (result, transaction) pair onto
the result. -/
def POut.resultOf {α β : Type} : POut (α × β) → POut α
  | .ok (a, _) => .ok a
  | .panicked => .panicked

/-- C4: the claim states that every register-class failure is reported
through a variant naming the class and the true direction, and in
particular that a failing CPU-interface write during restore yields a
restore-tagged error.  The code violates the CPU-interface case: in
devices Gic::set_state the fourth map_err wraps the failing
CPU-interface write in Error::SaveRegisters.  This theorem evaluates the
code at the failing input (restore transaction whose fourth operation,
the CPU-interface write, is rejected): the returned error is the
save-tagged CPU-interface variant, not the restore-tagged one, while a
failing distributor write in the same function is correctly
restore-tagged, as are the arch-layer restore errors. -/
theorem gic_set_state_icc_failure_mistagged :
    POut.resultOf (Gic.set_state sampleGicWithEntity [0] sampleGicState
        (Tx.init sampleGicRegs sampleItsRegs (some 3))) =
      .ok (.error (.saveRegisters "CPU interface registers"
        .setDeviceAttribute)) ∧
    POut.resultOf (Gic.set_state sampleGicWithEntity [0] sampleGicState
        (Tx.init sampleGicRegs sampleItsRegs (some 1))) =
      .ok (.error (.restoreRegisters "distributor registers"
        .setDeviceAttribute)) ∧
    (KvmGICv3.set_state [0] sampleV3State
        (Tx.init sampleGicRegs sampleItsRegs (some 3))).1 =
      .error (.restoreICCRegisters .setDeviceAttribute) ∧
    (KvmGICv3.set_state [0] sampleV3State
        (Tx.init sampleGicRegs sampleItsRegs (some 1))).1 =
      .error (.restoreDistributorRegisters .setDeviceAttribute) := by
  refine ⟨rfl, rfl, rfl, rfl⟩

/-- C10: the devices-layer Gic snapshot and restore (the latter with a
present, well-formed section) have the unstated precondition that
set_device_entity has been called: on a Gic whose device entity is still
absent, snapshot panics and restore panics (the unwrap of the absent
device handle), instead of returning an error; once the entity is set, a
fault-free snapshot does not panic. -/
theorem devices_gic_snapshot_restore_panic_without_device_entity
    (g : Gic) (t : Tx) (snap : Snapshot GicState) :
    g.device_entity = none →
    (Gic.snapshot g t = .panicked ∧
     (∀ (sec : SnapshotDataSection GicState) (st : GicState),
        snap.findSection (g.id ++ "-section") = some sec →
        sec.snapshot = SerBytes.enc st →
        Gic.restore g snap t = .panicked) ∧
     (∀ (gr : GicRegs) (ir : ItsRegs),
        Gic.snapshot g.set_device_entity (Tx.init gr ir none) ≠
          POut.panicked)) := by
  intro h
  refine ⟨?_, ?_, ?_⟩
  · simp [h]
  · intro sec st hs hb
    simp [hs, hb, serde_from_slice, h]
  · intro gr ir
    simp

/-- A snapshot holding a well-formed gic-section payload. -/
def wellFormedSnapshotGic : Snapshot GicState :=
  { id := "gic",
    snapshot_data := [("gic-section",
      { id := "gic-section", snapshot := SerBytes.enc sampleGicState })] }

/-- Witness for C10 on a freshly constructed Gic (entity absent). -/
theorem devices_gic_snapshot_restore_panic_witness :
    Gic.snapshot (Gic.new "gic" 1)
        (Tx.init sampleGicRegs sampleItsRegs none) = .panicked ∧
    Gic.restore (Gic.new "gic" 1) wellFormedSnapshotGic
        (Tx.init sampleGicRegs sampleItsRegs none) = .panicked :=
  ⟨(devices_gic_snapshot_restore_panic_without_device_entity
      (Gic.new "gic" 1) (Tx.init sampleGicRegs sampleItsRegs none)
      wellFormedSnapshotGic rfl).1,
   ((devices_gic_snapshot_restore_panic_without_device_entity
      (Gic.new "gic" 1) (Tx.init sampleGicRegs sampleItsRegs none)
      wellFormedSnapshotGic rfl).2.1
      { id := "gic-section", snapshot := SerBytes.enc sampleGicState }
      sampleGicState rfl rfl)⟩

/- ------------------------------------------------------------------ -/
/- Memory layout and variant construction (C8, C9)                     -/
/- ------------------------------------------------------------------ -/

/-- Modelled from the spec: the layout module referenced as
layout::MAPPED_IO_START is not among the sources; the spec and the
source comment place the GIC directly below the 1 GiB mapped-I/O
boundary.  The claimed layout relations are differences relative to this
base and do not depend on its value. -/
def MAPPED_IO_START : Nat := 0x40000000

/-- Constant SZ_64K of gicv3.rs. -/
def SZ_64K : Nat := 0x00010000

/-- Constant KVM_VGIC_V3_DIST_SIZE of gicv3.rs. -/
def KVM_VGIC_V3_DIST_SIZE : Nat := SZ_64K

/-- Constant KVM_VGIC_V3_REDIST_SIZE of gicv3.rs. -/
def KVM_VGIC_V3_REDIST_SIZE : Nat := 2 * SZ_64K

/-- Constant ARCH_GIC_V3_MAINT_IRQ of gicv3.rs. -/
def ARCH_GIC_V3_MAINT_IRQ : Nat := 9

/-- Embedding of KvmGICv3::get_dist_addr. -/
def KvmGICv3.get_dist_addr : Nat := MAPPED_IO_START - KVM_VGIC_V3_DIST_SIZE

/-- Embedding of KvmGICv3::get_dist_size. -/
def KvmGICv3.get_dist_size : Nat := KVM_VGIC_V3_DIST_SIZE

/-- Embedding of KvmGICv3::get_redists_size. -/
def KvmGICv3.get_redists_size (vcpu_count : Nat) : Nat :=
  vcpu_count * KVM_VGIC_V3_REDIST_SIZE

/-- Embedding of KvmGICv3::get_redists_addr. -/
def KvmGICv3.get_redists_addr (vcpu_count : Nat) : Nat :=
  KvmGICv3.get_dist_addr - KvmGICv3.get_redists_size vcpu_count

/-- Constant KVM_VGIC_V3_ITS_SIZE of gicv3_its.rs. -/
def KVM_VGIC_V3_ITS_SIZE : Nat := 2 * SZ_64K

/-- Embedding of KvmGICv3ITS::get_msi_size. -/
def KvmGICv3ITS.get_msi_size : Nat := KVM_VGIC_V3_ITS_SIZE

/-- Embedding of KvmGICv3ITS::get_msi_addr. -/
def KvmGICv3ITS.get_msi_addr (vcpu_count : Nat) : Nat :=
  KvmGICv3.get_redists_addr vcpu_count - KvmGICv3ITS.get_msi_size

/-- C8: for every positive vCPU count, the redistributor region size is
vcpu_count times 2 times 64 KiB, the redistributor region base is the
distributor base minus that size, and for the ITS variant the MSI
doorbell size is 2 times 64 KiB with its base directly below the
redistributor region. -/
theorem gic_memory_layout_properties (v : Nat) (hv : 0 < v) :
    KvmGICv3.get_redists_size v = v * (2 * 65536) ∧
    KvmGICv3.get_redists_addr v =
      KvmGICv3.get_dist_addr - KvmGICv3.get_redists_size v ∧
    KvmGICv3ITS.get_msi_size = 2 * 65536 ∧
    KvmGICv3ITS.get_msi_addr v =
      KvmGICv3.get_redists_addr v - KvmGICv3ITS.get_msi_size := by
  exact ⟨rfl, rfl, rfl, rfl⟩

/-- Witness for C8 at vcpu_count 4 (spec scenario A: redistributor
region size 524288 bytes). -/
theorem gic_memory_layout_properties_witness :
    0 < 4 ∧
    (KvmGICv3.get_redists_size 4 = 4 * (2 * 65536) ∧
     KvmGICv3.get_redists_addr 4 =
       KvmGICv3.get_dist_addr - KvmGICv3.get_redists_size 4 ∧
     KvmGICv3ITS.get_msi_size = 2 * 65536 ∧
     KvmGICv3ITS.get_msi_addr 4 =
       KvmGICv3.get_redists_addr 4 - KvmGICv3ITS.get_msi_size) ∧
    KvmGICv3.get_redists_size 4 = 524288 :=
  ⟨by decide, gic_memory_layout_properties 4 (by decide), by decide⟩

/-- The variant record of gicv3.rs KvmGICv3.  The opaque
reference-counted device handle is represented by a Unit placeholder;
properties carries the four-element address/size tuple from the source. -/
structure KvmGICv3 : Type where
  device : Unit
  gicr_typers : List Nat
  properties : List Nat
  vcpu_count : Nat
deriving DecidableEq

/-- Embedding of KvmGICv3::create_device: gicr_typers is
zero-initialized with one entry per vCPU, properties is computed from
the layout functions. -/
@[simp] def KvmGICv3.create_device (vcpu_count : Nat) : KvmGICv3 :=
  { device := (), gicr_typers := List.replicate vcpu_count 0,
    properties := [KvmGICv3.get_dist_addr, KvmGICv3.get_dist_size,
      KvmGICv3.get_redists_addr vcpu_count,
      KvmGICv3.get_redists_size vcpu_count],
    vcpu_count := vcpu_count }

/-- Embedding of KvmGICv3::set_gicr_typers: replaces the vector with the
caller-supplied one, unconditionally. -/
@[simp] def KvmGICv3.set_gicr_typers (g : KvmGICv3) (typers : List Nat) :
    KvmGICv3 :=
  { g with gicr_typers := typers }

/-- The variant record of gicv3_its.rs KvmGICv3ITS (device handles as
Unit placeholders). -/
structure KvmGICv3ITS : Type where
  gic_v3_device : Unit
  gic_v3_its_device : Unit
  gicr_typers : List Nat
  gic_properties : List Nat
  msi_properties : List Nat
  vcpu_count : Nat
deriving DecidableEq

/-- Embedding of KvmGICv3ITS::create_device. -/
@[simp] def KvmGICv3ITS.create_device (vcpu_count : Nat) : KvmGICv3ITS :=
  { gic_v3_device := (), gic_v3_its_device := (),
    gicr_typers := List.replicate vcpu_count 0,
    gic_properties := [KvmGICv3.get_dist_addr, KvmGICv3.get_dist_size,
      KvmGICv3.get_redists_addr vcpu_count,
      KvmGICv3.get_redists_size vcpu_count],
    msi_properties := [KvmGICv3ITS.get_msi_addr vcpu_count,
      KvmGICv3ITS.get_msi_size],
    vcpu_count := vcpu_count }

/-- Embedding of KvmGICv3ITS::set_gicr_typers. -/
@[simp] def KvmGICv3ITS.set_gicr_typers (g : KvmGICv3ITS)
    (typers : List Nat) : KvmGICv3ITS :=
  { g with gicr_typers := typers }

/-- C9 counterexample: the claim states that the invariant
gicr_typers.len() equals vcpu_count is preserved by every subsequent
operation including set_gicr_typers.  The setter replaces the vector
with its argument without any length check, so calling it with an empty
vector on a one-vCPU variant breaks the invariant. -/
theorem set_gicr_typers_breaks_length_invariant :
    ¬ (((KvmGICv3.create_device 1).set_gicr_typers []).gicr_typers.length =
        ((KvmGICv3.create_device 1).set_gicr_typers []).vcpu_count) := by
  decide

/-- C9 amended: the invariant gicr_typers.len() equals vcpu_count holds
immediately after construction of either variant (one zero entry per
vCPU), and set_gicr_typers preserves it exactly when the supplied vector
has length vcpu_count (the setter performs no length check); no other
operation modifies gicr_typers or vcpu_count. -/
theorem gicr_typers_length_invariant_amended (v : Nat) (typers : List Nat) :
    (KvmGICv3.create_device v).gicr_typers.length =
      (KvmGICv3.create_device v).vcpu_count ∧
    (KvmGICv3ITS.create_device v).gicr_typers.length =
      (KvmGICv3ITS.create_device v).vcpu_count ∧
    (typers.length = v →
      ((KvmGICv3.create_device v).set_gicr_typers typers).gicr_typers.length =
        ((KvmGICv3.create_device v).set_gicr_typers typers).vcpu_count ∧
      ((KvmGICv3ITS.create_device v).set_gicr_typers
          typers).gicr_typers.length =
        ((KvmGICv3ITS.create_device v).set_gicr_typers
          typers).vcpu_count) := by
  refine ⟨by simp, by simp, ?_⟩
  intro h
  exact ⟨by simp [h], by simp [h]⟩

/-- Witness for the amended C9 at vcpu_count 2 with a two-entry vector. -/
theorem gicr_typers_length_invariant_amended_witness :
    (KvmGICv3.create_device 2).gicr_typers.length =
      (KvmGICv3.create_device 2).vcpu_count ∧
    ((KvmGICv3.create_device 2).set_gicr_typers [7, 8]).gicr_typers.length =
      ((KvmGICv3.create_device 2).set_gicr_typers [7, 8]).vcpu_count :=
  ⟨(gicr_typers_length_invariant_amended 2 [7, 8]).1,
   ((gicr_typers_length_invariant_amended 2 [7, 8]).2.2 rfl).1⟩
